import Mathlib

/-!
# Verification of the ccTalk host protocol core

A shallow embedding in Lean 4 of the protocol core of `cctalk-host.py`:
the two integrity codecs (CRC16-XModem and 8-bit additive checksum), the
frame sealing/stripping functions `_add_crc` / `_remove_crc`, the
command exchange `cmd` (modelled over a deterministic byte-stream oracle
standing for the serial line), the buffered-event decoders for headers
159 (bill) and 229 (coin), and the address/mode scanner's
save-and-restore discipline.

Bytes are modelled as `Nat`; every masking operation of the source
(`& 0xFFFF`, `& 0xFF`) is rendered as `% 65536` / `% 256` at the same
program point.
-/

namespace CctalkHost

/-- The two integrity modes: `'crc'` (2-byte XModem CRC) or `'checksum'`
(1-byte additive checksum), as validated in `BillValidator.__init__`. -/
inductive ChecksumMode where
  | crc
  | checksum
deriving DecidableEq, Repr

/-- `BillValidator.CRC_TABLE`: the 256-entry XModem CRC lookup table. -/
def CRC_TABLE : List Nat := [0x0000, 0x1021, 0x2042, 0x3063, 0x4084, 0x50A5, 0x60C6, 0x70E7,
  0x8108, 0x9129, 0xA14A, 0xB16B, 0xC18C, 0xD1AD, 0xE1CE, 0xF1EF,
  0x1231, 0x0210, 0x3273, 0x2252, 0x52B5, 0x4294, 0x72F7, 0x62D6,
  0x9339, 0x8318, 0xB37B, 0xA35A, 0xD3BD, 0xC39C, 0xF3FF, 0xE3DE,
  0x2462, 0x3443, 0x0420, 0x1401, 0x64E6, 0x74C7, 0x44A4, 0x5485,
  0xA56A, 0xB54B, 0x8528, 0x9509, 0xE5EE, 0xF5CF, 0xC5AC, 0xD58D,
  0x3653, 0x2672, 0x1611, 0x0630, 0x76D7, 0x66F6, 0x5695, 0x46B4,
  0xB75B, 0xA77A, 0x9719, 0x8738, 0xF7DF, 0xE7FE, 0xD79D, 0xC7BC,
  0x48C4, 0x58E5, 0x6886, 0x78A7, 0x0840, 0x1861, 0x2802, 0x3823,
  0xC9CC, 0xD9ED, 0xE98E, 0xF9AF, 0x8948, 0x9969, 0xA90A, 0xB92B,
  0x5AF5, 0x4AD4, 0x7AB7, 0x6A96, 0x1A71, 0x0A50, 0x3A33, 0x2A12,
  0xDBFD, 0xCBDC, 0xFBBF, 0xEB9E, 0x9B79, 0x8B58, 0xBB3B, 0xAB1A,
  0x6CA6, 0x7C87, 0x4CE4, 0x5CC5, 0x2C22, 0x3C03, 0x0C60, 0x1C41,
  0xEDAE, 0xFD8F, 0xCDEC, 0xDDCD, 0xAD2A, 0xBD0B, 0x8D68, 0x9D49,
  0x7E97, 0x6EB6, 0x5ED5, 0x4EF4, 0x3E13, 0x2E32, 0x1E51, 0x0E70,
  0xFF9F, 0xEFBE, 0xDFDD, 0xCFFC, 0xBF1B, 0xAF3A, 0x9F59, 0x8F78,
  0x9188, 0x81A9, 0xB1CA, 0xA1EB, 0xD10C, 0xC12D, 0xF14E, 0xE16F,
  0x1080, 0x00A1, 0x30C2, 0x20E3, 0x5004, 0x4025, 0x7046, 0x6067,
  0x83B9, 0x9398, 0xA3FB, 0xB3DA, 0xC33D, 0xD31C, 0xE37F, 0xF35E,
  0x02B1, 0x1290, 0x22F3, 0x32D2, 0x4235, 0x5214, 0x6277, 0x7256,
  0xB5EA, 0xA5CB, 0x95A8, 0x8589, 0xF56E, 0xE54F, 0xD52C, 0xC50D,
  0x34E2, 0x24C3, 0x14A0, 0x0481, 0x7466, 0x6447, 0x5424, 0x4405,
  0xA7DB, 0xB7FA, 0x8799, 0x97B8, 0xE75F, 0xF77E, 0xC71D, 0xD73C,
  0x26D3, 0x36F2, 0x0691, 0x16B0, 0x6657, 0x7676, 0x4615, 0x5634,
  0xD94C, 0xC96D, 0xF90E, 0xE92F, 0x99C8, 0x89E9, 0xB98A, 0xA9AB,
  0x5844, 0x4865, 0x7806, 0x6827, 0x18C0, 0x08E1, 0x3882, 0x28A3,
  0xCB7D, 0xDB5C, 0xEB3F, 0xFB1E, 0x8BF9, 0x9BD8, 0xABBB, 0xBB9A,
  0x4A75, 0x5A54, 0x6A37, 0x7A16, 0x0AF1, 0x1AD0, 0x2AB3, 0x3A92,
  0xFD2E, 0xED0F, 0xDD6C, 0xCD4D, 0xBDAA, 0xAD8B, 0x9DE8, 0x8DC9,
  0x7C26, 0x6C07, 0x5C64, 0x4C45, 0x3CA2, 0x2C83, 0x1CE0, 0x0CC1,
  0xEF1F, 0xFF3E, 0xCF5D, 0xDF7C, 0xAF9B, 0xBFBA, 0x8FD9, 0x9FF8,
  0x6E17, 0x7E36, 0x4E55, 0x5E74, 0x2E93, 0x3EB2, 0x0ED1, 0x1EF0]

/-- The loop body of `_crc_calculate_xmodem`:
`crc = ((crc << 8) ^ CRC_TABLE[(crc >> 8) ^ byte]) & 0xFFFF`, folded over
the message starting from `crc = 0x0000`. -/
def crcFold (message : List Nat) : Nat :=
  message.foldl (fun crc byte => ((crc * 256) ^^^ CRC_TABLE.getD ((crc / 256) ^^^ byte) 0) % 65536) 0

/-- `BillValidator._crc_calculate_xmodem`: returns `(msb, lsb)` of the
16-bit XModem CRC (the source splits the 4-hex-digit rendering of the
CRC, which is its high and low byte). -/
def _crc_calculate_xmodem (message : List Nat) : Nat × Nat :=
  (crcFold message / 256, crcFold message % 256)

/-- `BillValidator._checksum_calculate`:
`total_sum = sum(message) & 0xFF; checksum = (256 - total_sum) & 0xFF`. -/
def _checksum_calculate (message : List Nat) : Nat :=
  (256 - message.sum % 256) % 256

/-- `BillValidator._add_crc`.  CRC mode: insert the CRC LSB at index 2
and append the MSB.  Checksum mode: append the single checksum byte. -/
def _add_crc (mode : ChecksumMode) (l : List Nat) : List Nat :=
  match mode with
  | .crc =>
      (l.take 2 ++ (_crc_calculate_xmodem l).2 :: l.drop 2) ++ [(_crc_calculate_xmodem l).1]
  | .checksum =>
      l ++ [_checksum_calculate l]

/-- `BillValidator._remove_crc`.  CRC mode: on fewer than 5 bytes return
the input unchanged with `false`; otherwise pop the MSB from the end and
the LSB from index 2, recompute the CRC over the remainder and compare.
Checksum mode: on fewer than 2 bytes return the input unchanged with
`false`; otherwise pop the trailing checksum, recompute it and check the
zero-sum condition, and (when at least 3 bytes remain) pop the source
byte at index 2 before returning. -/
def _remove_crc (mode : ChecksumMode) (data : List Nat) : List Nat × Bool :=
  match mode with
  | .crc =>
      if data.length < 5 then (data, false)
      else
        let msb := data.getLast?.getD 0
        let l1 := data.dropLast
        let lsb := l1.getD 2 0
        let l2 := l1.take 2 ++ l1.drop 3
        let calculated := _crc_calculate_xmodem l2
        (l2, calculated.1 == msb && calculated.2 == lsb)
  | .checksum =>
      if data.length < 2 then (data, false)
      else
        let received := data.getLast?.getD 0
        let l1 := data.dropLast
        let calculated := _checksum_calculate l1
        let total_sum := (l1.sum + received) % 256
        let l2 := if 3 ≤ l1.length then l1.take 2 ++ l1.drop 3 else l1
        (l2, calculated == received && total_sum == 0)

/-- `BillValidator._ints_to_ascii`: the string rendering of a byte list
when every byte is 0 or printable ASCII, else `none`. -/
def _ints_to_ascii (int_list : List Nat) : Option String :=
  if int_list = [] then none
  else if int_list.all (fun i => i == 0 || (32 ≤ i && i ≤ 126)) then
    some (String.mk (int_list.map Char.ofNat))
  else none

/-- One decoded buffered event, as built by `parse_header159_response` /
`parse_header229_response` (the dictionary keys `category`, `type`, `a`,
`b`, `pair`). -/
structure EventRecord where
  category : String
  type : String
  a : Nat
  b : Nat
  pair : Nat
deriving DecidableEq, Repr, Inhabited

/-- The `event_map` of `parse_header159_response` (bill devices), with
its `.get` default. -/
def event_map159 (result_a result_b : Nat) : String :=
  match result_b with
  | 0 => "Master inhibit active"
  | 1 => "Bill returned from escrow"
  | 2 => "Invalid bill (due to validation fail)"
  | 3 => "Invalid bill (due to transport problem)"
  | 4 => "Inhibited bill (on serial)"
  | 5 => "Inhibited bill (on DIP switches)"
  | 6 => "Bill jammed in transport (unsafe mode)"
  | 7 => "Bill jammed in stacker"
  | 8 => "Bill pulled backwards"
  | 9 => "Bill tamper"
  | 10 => "Stacker OK"
  | 11 => "Stacker removed"
  | 12 => "Stacker inserted"
  | 13 => "Stacker faulty"
  | 14 => "Stacker full"
  | 15 => "Stacker jammed"
  | 16 => "Bill jammed in transport (safe mode)"
  | 17 => "Opto fraud detected"
  | 18 => "String fraud detected"
  | 19 => "Anti-string mechanism faulty"
  | 20 => "Barcode detected"
  | 21 => "Unknown bill type stacked"
  | _ => "Unknown event (A=" ++ toString result_a ++ ", B=" ++ toString result_b ++ ")"

/-- The chained conditional of `parse_header159_response` choosing the
event category for `result_a == 0`. -/
def category159 (result_b : Nat) : String :=
  if result_b ∈ ([0, 1, 4, 5, 10, 11, 12, 14, 20, 21] : List Nat) then "Status"
  else if result_b ∈ ([2, 3] : List Nat) then "Reject"
  else if result_b ∈ ([6, 7, 13, 15, 16, 19] : List Nat) then "Fatal Error"
  else "Fraud Attempt"

/-- The per-pair classification of `parse_header159_response`, given the
two result bytes and the 1-based pair number. -/
def mk159 (result_a result_b pr : Nat) : EventRecord :=
  if result_a = 0 then
    ⟨category159 result_b, event_map159 result_a result_b, result_a, result_b, pr⟩
  else if 1 ≤ result_a ∧ result_a ≤ 255 then
    if result_b = 0 then
      ⟨"Credit", "Bill type " ++ toString result_a ++
        " validated correctly and sent to cashbox/stacker", result_a, result_b, pr⟩
    else if result_b = 1 then
      ⟨"Pending Credit", "Bill type " ++ toString result_a ++
        " validated correctly and held in escrow", result_a, result_b, pr⟩
    else
      ⟨"Unknown", "A=" ++ toString result_a ++ ", B=" ++ toString result_b,
        result_a, result_b, pr⟩
  else
    ⟨"Unknown", "A=" ++ toString result_a ++ ", B=" ++ toString result_b,
      result_a, result_b, pr⟩

/-- Pair `i` (0-based) of a header-159 payload: bytes at `1 + 2i` and
`2 + 2i` when present, else the `(0, 0)` default. -/
def pair159 (resp_data : List Nat) (i : Nat) : EventRecord :=
  mk159 (if 1 + i * 2 + 1 < resp_data.length then resp_data.getD (1 + i * 2) 0 else 0)
        (if 1 + i * 2 + 1 < resp_data.length then resp_data.getD (1 + i * 2 + 1) 0 else 0)
        (i + 1)

/-- `parse_header159_response`: `(counter, events)`; an empty payload
short-circuits to `(0, [])`, otherwise exactly the 5 pairs are decoded. -/
def parse_header159_response (resp_data : List Nat) : Nat × List EventRecord :=
  if resp_data.length < 1 then (0, [])
  else (resp_data.getD 0 0, (List.range 5).map (pair159 resp_data))

/-- The `event_map` of `parse_header229_response` (coin devices), with
its `.get` default. -/
def event_map229 (result_b : Nat) : String :=
  match result_b with
  | 0 => "Null event"
  | 1 => "Reject coin"
  | 2 => "Invalid coin"
  | 3 => "Abandon coin"
  | 4 => "Inhibited coin"
  | 5 => "Full post-insertion inhibit"
  | 6 => "Sorter wall"
  | 7 => "Sorter path"
  | 8 => "Coin jam"
  | 9 => "Sorter jam"
  | 10 => "Sorter sensor"
  | 11 => "Sorter not ready"
  | 12 => "Sorter path error"
  | 13 => "Pay out jam"
  | 14 => "Pay out sensor"
  | 15 => "Pay out empty"
  | 16 => "Base sensor error"
  | 17 => "Year sensor error"
  | 18 => "Token teach error"
  | 19 => "Power fail"
  | 20 => "Authentication fail"
  | 21 => "Coin feeder jam"
  | 22 => "Coin feeder sensor error"
  | 23 => "Coin feeder empty"
  | 24 => "Coin feeder faulty"
  | 255 => "Unknown error"
  | _ => "Unknown coin event (B=" ++ toString result_b ++ ")"

/-- The chained conditional of `parse_header229_response` choosing the
event category for `result_a == 0`. -/
def category229 (result_b : Nat) : String :=
  if result_b ∈ ([0, 1, 4, 11] : List Nat) then "Status"
  else if result_b ∈ ([2, 3] : List Nat) then "Reject"
  else "Error"

/-- The per-pair classification of `parse_header229_response`. -/
def mk229 (result_a result_b pr : Nat) : EventRecord :=
  if result_a = 0 then
    ⟨category229 result_b, event_map229 result_b, result_a, result_b, pr⟩
  else
    ⟨"Credit", "Coin type " ++ toString result_a ++ " accepted (Sorter path " ++
      toString result_b ++ ")", result_a, result_b, pr⟩

/-- Pair `i` (0-based) of a header-229 payload, with the same `(0, 0)`
default as the bill decoder. -/
def pair229 (resp_data : List Nat) (i : Nat) : EventRecord :=
  mk229 (if 1 + i * 2 + 1 < resp_data.length then resp_data.getD (1 + i * 2) 0 else 0)
        (if 1 + i * 2 + 1 < resp_data.length then resp_data.getD (1 + i * 2 + 1) 0 else 0)
        (i + 1)

/-- `parse_header229_response`: `(counter, events)` with the same empty
payload short-circuit as the bill decoder. -/
def parse_header229_response (resp_data : List Nat) : Nat × List EventRecord :=
  if resp_data.length < 1 then (0, [])
  else (resp_data.getD 0 0, (List.range 5).map (pair229 resp_data))

/-- The dictionary returned by `BillValidator.cmd` on the non-`None`
path: `{'header': resp_header, 'data': resp_data}`; `resp_header` may
still be Python `None` (modelled as `Option`). -/
structure CommandResult where
  header : Option Nat
  data : List Nat
deriving DecidableEq, Repr

/-- Outcome of one `cmd` exchange over the modelled serial line: the
returned value, the bytes left unread on the line, and how many serial
read calls the exchange performed (echo, length discovery, body). -/
structure CmdOut where
  result : Option CommandResult
  rest : List Nat
  reads : Nat
deriving DecidableEq, Repr

/-- The message `cmd` assembles before sealing:
`[address, length, header] + data` in CRC mode,
`[address, length, 1, header] + data` in checksum mode. -/
def cmd_msg (mode : ChecksumMode) (address header : Nat) (data : List Nat) : List Nat :=
  match mode with
  | .crc => address :: data.length :: header :: data
  | .checksum => address :: data.length :: 1 :: header :: data

/-- The sealed request `cmd` writes to the line. -/
def cmd_req (mode : ChecksumMode) (address header : Nat) (data : List Nat) : List Nat :=
  _add_crc mode (cmd_msg mode address header data)

/-- The raw response frame `cmd` assembles: after skipping the echo of
the request, 2 length-discovery bytes followed by `dest_len[1] + 3` body
bytes; empty when the length-discovery read comes back short. -/
def cmd_resp (mode : ChecksumMode) (address header : Nat) (data stream : List Nat) : List Nat :=
  let req := cmd_req mode address header data
  let s1 := stream.drop req.length
  let dest_len := s1.take 2
  if dest_len.length = 2 then dest_len ++ (s1.drop 2).take (dest_len.getD 1 0 + 3)
  else []

/-- The response-parsing step of `cmd` (lines guarded by
`len(resp) >= 5` and `len(resp_trunc) >= 3`): strips integrity bytes and
extracts `(resp_header, resp_data)`. -/
def cmd_parse (mode : ChecksumMode) (resp : List Nat) : Option Nat × List Nat :=
  if 5 ≤ resp.length then
    let t := (_remove_crc mode resp).1
    if 3 ≤ t.length then (some (t.getD 2 0), t.drop 3)
    else (none, [])
  else (none, [])

/-- `BillValidator.cmd`, modelled over a deterministic byte stream
standing for the serial input (a read of `n` bytes takes
`min n remaining` bytes; a short read is a timeout).  The return value
is `none` exactly when `len(resp) <= len(msg)`. -/
def cmd (mode : ChecksumMode) (address header : Nat) (data stream : List Nat) : CmdOut :=
  let msg := cmd_msg mode address header data
  let req := cmd_req mode address header data
  let s1 := stream.drop req.length
  let dest_len := s1.take 2
  if dest_len.length = 2 then
    let resp := cmd_resp mode address header data stream
    let rest := (s1.drop 2).drop (dest_len.getD 1 0 + 3)
    let parsed := cmd_parse mode resp
    if resp.length ≤ msg.length then ⟨none, rest, 3⟩
    else ⟨some ⟨parsed.1, parsed.2⟩, rest, 3⟩
  else ⟨none, s1.drop 2, 2⟩

/-- The mutable session state `scan` touches: `self.address`,
`self.checksum_mode`, `self.timeout` (the configured value) and
`self.ser.timeout` (the live serial timeout). -/
structure Session where
  address : Nat
  checksum_mode : ChecksumMode
  timeout : ℚ
  serTimeout : ℚ
deriving DecidableEq, Repr

/-- One device found by `scan`. -/
structure DiscoveredDevice where
  address : Nat
  mode : ChecksumMode
  manufacturer : Option String
deriving DecidableEq, Repr

/-- `priority_addresses = [40, 2, 1]` in `scan`. -/
def priority_addresses : List Nat := [40, 2, 1]

/-- `all_addresses`: the priority addresses followed by the rest of
`range(1, 256)`. -/
def all_addresses : List Nat :=
  priority_addresses ++ (List.range' 1 255).filter (fun a => ¬ a ∈ priority_addresses)

/-- The flattened iteration space of `scan`'s nested loops: every
address paired with each mode, `'crc'` first. -/
def scan_steps : List (Nat × ChecksumMode) :=
  all_addresses.flatMap (fun a => [(a, ChecksumMode.crc), (a, ChecksumMode.checksum)])

/-- One iteration of `scan`'s inner loop: set the session's address and
mode, shrink the serial timeout to 0.05 s, issue the simple poll, and on
a response record the device with its manufacturer name.  `poll a m` is
the device oracle: `none` when nothing answers the simple poll at
`(a, m)`, `some d` when something does and `d` is the payload it later
returns for the manufacturer request. -/
def scanStep (poll : Nat → ChecksumMode → Option (List Nat))
    (acc : Session × List DiscoveredDevice) (st : Nat × ChecksumMode) :
    Session × List DiscoveredDevice :=
  let s := { acc.1 with address := st.1, checksum_mode := st.2, serTimeout := 1 / 20 }
  match poll st.1 st.2 with
  | none => (s, acc.2)
  | some man_data =>
      let man_name := if man_data ≠ [] then _ints_to_ascii man_data else some "Unknown"
      (s, acc.2 ++ [⟨st.1, st.2, man_name⟩])

/-- `BillValidator.scan`.  `interrupt = some k` models a
`KeyboardInterrupt` (caught by the source's `except` clause) arriving
after `k` inner-loop iterations; `none` models an uninterrupted sweep.
In every case the trailing restoration lines run: address and mode are
reset to their saved values and the serial timeout to `self.timeout`. -/
def scan (poll : Nat → ChecksumMode → Option (List Nat)) (interrupt : Option Nat)
    (s : Session) : Session × List DiscoveredDevice :=
  let executed := match interrupt with
    | none => scan_steps
    | some k => scan_steps.take k
  let swept := executed.foldl (scanStep poll) (s, [])
  ({ swept.1 with
      address := s.address
      checksum_mode := s.checksum_mode
      serTimeout := s.timeout }, swept.2)

/-! ## Helper lemmas -/

/-- The defining property of the 8-bit checksum: adding it to the sum of
the protected bytes gives 0 mod 256. -/
lemma checksum_total (l : List Nat) : (l.sum + _checksum_calculate l) % 256 = 0 := by
  unfold _checksum_calculate
  omega

/-- Stripping integrity bytes from a frame of at least 5 bytes removes
exactly 2 bytes in either mode. -/
lemma remove_crc_len (mode : ChecksumMode) (data : List Nat) (h : 5 ≤ data.length) :
    ((_remove_crc mode data).1).length = data.length - 2 := by
  cases mode
  · rw [_remove_crc, if_neg (by omega)]
    simp only [List.length_append, List.length_take, List.length_drop, List.length_dropLast]
    omega
  · rw [_remove_crc, if_neg (by omega)]
    have h3 : 3 ≤ data.length - 1 := by omega
    simp only [List.length_dropLast, h3, if_true, List.length_append, List.length_take,
      List.length_drop]
    omega

/-! ## Claim theorems -/

/-- C1: sealing a frame and immediately parsing it back yields
`integrityValid = true` and the stripped frame
`[address, len(payload), header] ++ payload`, in both integrity modes
(in checksum mode the base passed to `_add_crc` carries the extra source
byte `1` at index 2, which the parser pops again). -/
theorem seal_unseal_round_trip (address header : Nat) (payload : List Nat) :
    _remove_crc .crc (_add_crc .crc (address :: payload.length :: header :: payload)) =
      (address :: payload.length :: header :: payload, true) ∧
    _remove_crc .checksum
        (_add_crc .checksum (address :: payload.length :: 1 :: header :: payload)) =
      (address :: payload.length :: header :: payload, true) := by
  constructor
  · have hseal : _add_crc .crc (address :: payload.length :: header :: payload) =
        (address :: payload.length ::
          (_crc_calculate_xmodem (address :: payload.length :: header :: payload)).2 ::
          header :: payload) ++
          [(_crc_calculate_xmodem (address :: payload.length :: header :: payload)).1] := rfl
    rw [hseal, _remove_crc,
      if_neg (by simp only [List.length_append, List.length_cons]; omega)]
    simp only [List.getLast?_concat, List.dropLast_concat, Option.getD_some]
    show (address :: payload.length :: header :: payload,
        (_crc_calculate_xmodem (address :: payload.length :: header :: payload)).1 ==
          (_crc_calculate_xmodem (address :: payload.length :: header :: payload)).1 &&
        ((_crc_calculate_xmodem (address :: payload.length :: header :: payload)).2 ==
          (_crc_calculate_xmodem (address :: payload.length :: header :: payload)).2)) =
      (address :: payload.length :: header :: payload, true)
    simp
  · have hseal : _add_crc .checksum (address :: payload.length :: 1 :: header :: payload) =
        (address :: payload.length :: 1 :: header :: payload) ++
          [_checksum_calculate (address :: payload.length :: 1 :: header :: payload)] := rfl
    rw [hseal, _remove_crc,
      if_neg (by simp only [List.length_append, List.length_cons]; omega)]
    simp only [List.getLast?_concat, List.dropLast_concat, Option.getD_some]
    show (address :: payload.length :: header :: payload,
        (_checksum_calculate (address :: payload.length :: 1 :: header :: payload) ==
          _checksum_calculate (address :: payload.length :: 1 :: header :: payload)) &&
        (((address :: payload.length :: 1 :: header :: payload).sum +
            _checksum_calculate (address :: payload.length :: 1 :: header :: payload)) %
          256 == 0)) =
      (address :: payload.length :: header :: payload, true)
    rw [checksum_total (address :: payload.length :: 1 :: header :: payload)]
    simp

/-- C2: the checksum byte cancels the byte sum mod 256, and consequently
every frame sealed in checksum mode has byte sum 0 mod 256. -/
theorem checksum_zero_sum (l : List Nat) :
    (l.sum + _checksum_calculate l) % 256 = 0 ∧
    (_add_crc .checksum l).sum % 256 = 0 := by
  refine ⟨checksum_total l, ?_⟩
  simpa [_add_crc] using checksum_total l

/-- C7: `_remove_crc` handles too-short input by returning the bytes
unchanged with validity `false` — below 5 bytes in CRC mode, below 2
bytes in checksum mode — rather than failing. -/
theorem remove_crc_short (data : List Nat) :
    (data.length < 5 → _remove_crc .crc data = (data, false)) ∧
    (data.length < 2 → _remove_crc .checksum data = (data, false)) := by
  constructor <;> intro h <;> simp [_remove_crc, h]

/-- C7 witness. -/
theorem remove_crc_short_witness :
    _remove_crc .crc [1, 2] = ([1, 2], false) ∧
    _remove_crc .checksum [9] = ([9], false) :=
  ⟨(remove_crc_short [1, 2]).1 (by decide), (remove_crc_short [9]).2 (by decide)⟩

/-- C9 counterexample: sealing `[1,2,0,31,0]` in CRC mode does NOT give
the spec's 8-byte vector `[1,2,0xD4,0x74,0,31,0,0x00]` (adding a 16-bit
CRC to 5 bytes yields 7 bytes, and the CRC of this frame is 0x5474). -/
theorem add_crc_vector_spec_false :
    _add_crc .crc [1, 2, 0, 31, 0] ≠ [1, 2, 0xD4, 0x74, 0, 31, 0, 0x00] := by decide

/-- C9 (amended): sealing `[1,2,0,31,0]` in CRC mode yields
`[1,2,0x74,0,31,0,0x54]` — CRC LSB 0x74 inserted at index 2, CRC MSB
0x54 appended at the end (the source's own `test add_crc` vector). -/
theorem add_crc_vector :
    _add_crc .crc [1, 2, 0, 31, 0] = [1, 2, 0x74, 0, 31, 0, 0x54] := by decide

/-- C10: for a received checksum byte `c < 256`, recomputed-checksum
equality and the zero-sum test are equivalent, their conjunction equals
either alone, and the validity bit of `_remove_crc`'s checksum branch
equals the zero-sum test by itself. -/
theorem checksum_checks_equivalent (l : List Nat) (c : Nat) (hc : c < 256) :
    ((_checksum_calculate l = c) ↔ (l.sum + c) % 256 = 0) ∧
    (((_checksum_calculate l = c) ∧ (l.sum + c) % 256 = 0) ↔ (l.sum + c) % 256 = 0) ∧
    (l ≠ [] → (_remove_crc .checksum (l ++ [c])).2 = ((l.sum + c) % 256 == 0)) := by
  have hiff : (_checksum_calculate l = c) ↔ (l.sum + c) % 256 = 0 := by
    unfold _checksum_calculate
    omega
  refine ⟨hiff, ⟨fun h => h.2, fun h => ⟨hiff.mpr h, h⟩⟩, fun hne => ?_⟩
  have hlen : ¬ (l ++ [c]).length < 2 := by
    cases l with
    | nil => exact absurd rfl hne
    | cons x xs => simp only [List.length_append, List.length_cons]; omega
  rw [_remove_crc, if_neg hlen]
  simp only [List.getLast?_concat, List.dropLast_concat, Option.getD_some]
  by_cases hz : (l.sum + c) % 256 = 0
  · simp [hz, hiff.mpr hz]
  · simp [hz, Nat.beq_eq]

/-- C10 witness: the source's checksum test frame `[40,0,1,159]` with
its checksum byte 56. -/
theorem checksum_checks_equivalent_witness :
    (56 : Nat) < 256 ∧ ([40, 0, 1, 159] : List Nat) ≠ [] ∧
    ((_checksum_calculate [40, 0, 1, 159] = 56 ↔
        (([40, 0, 1, 159] : List Nat).sum + 56) % 256 = 0) ∧
     ((_checksum_calculate [40, 0, 1, 159] = 56 ∧
        (([40, 0, 1, 159] : List Nat).sum + 56) % 256 = 0) ↔
        (([40, 0, 1, 159] : List Nat).sum + 56) % 256 = 0) ∧
     (([40, 0, 1, 159] : List Nat) ≠ [] →
        (_remove_crc .checksum ([40, 0, 1, 159] ++ [56])).2 =
          ((([40, 0, 1, 159] : List Nat).sum + 56) % 256 == 0))) :=
  ⟨by decide, by decide, checksum_checks_equivalent [40, 0, 1, 159] 56 (by decide)⟩

/-- Every branch of the bill classification sets `pair` to the given
1-based index. -/
lemma mk159_pair (a b p : Nat) : (mk159 a b p).pair = p := by
  unfold mk159; split_ifs <;> rfl

/-- Every branch of the bill classification stores `result_a` in `a`. -/
lemma mk159_a (a b p : Nat) : (mk159 a b p).a = a := by
  unfold mk159; split_ifs <;> rfl

/-- Every branch of the bill classification stores `result_b` in `b`. -/
lemma mk159_b (a b p : Nat) : (mk159 a b p).b = b := by
  unfold mk159; split_ifs <;> rfl

/-- Every branch of the coin classification sets `pair` to the given
1-based index. -/
lemma mk229_pair (a b p : Nat) : (mk229 a b p).pair = p := by
  unfold mk229; split_ifs <;> rfl

lemma pair159_pair (d : List Nat) (i : Nat) : (pair159 d i).pair = i + 1 := by
  simp only [pair159, mk159_pair]

lemma pair229_pair (d : List Nat) (i : Nat) : (pair229 d i).pair = i + 1 := by
  simp only [pair229, mk229_pair]

/-- C3 counterexample: on the empty payload both decoders return an
empty event list, not 5 records. -/
theorem decoders_empty_payload :
    (parse_header159_response []).2.length = 0 ∧
    (parse_header229_response []).2.length = 0 := by decide

/-- C3 (amended): for every NON-empty payload each decoder returns
exactly 5 event records with pair indices 1..5, and any pair whose
bytes are missing from the payload is decoded as
`(resultA, resultB) = (0, 0)`; the empty payload instead short-circuits
to an empty event list. -/
theorem decoders_five_records (resp_data : List Nat) (i : Nat)
    (hne : resp_data ≠ []) (hi : i < 5) :
    (parse_header159_response resp_data).2 = (List.range 5).map (pair159 resp_data) ∧
    (parse_header229_response resp_data).2 = (List.range 5).map (pair229 resp_data) ∧
    (parse_header159_response resp_data).2.length = 5 ∧
    (parse_header229_response resp_data).2.length = 5 ∧
    (parse_header159_response resp_data).2.map EventRecord.pair = [1, 2, 3, 4, 5] ∧
    (parse_header229_response resp_data).2.map EventRecord.pair = [1, 2, 3, 4, 5] ∧
    (resp_data.length ≤ 2 * i + 2 →
      (pair159 resp_data i).a = 0 ∧ (pair159 resp_data i).b = 0 ∧
      (pair229 resp_data i).a = 0 ∧ (pair229 resp_data i).b = 0) := by
  have hlen : ¬ resp_data.length < 1 := by
    cases resp_data with
    | nil => exact absurd rfl hne
    | cons x xs => simp
  have h159 : (parse_header159_response resp_data).2 =
      (List.range 5).map (pair159 resp_data) := by
    rw [parse_header159_response, if_neg hlen]
  have h229 : (parse_header229_response resp_data).2 =
      (List.range 5).map (pair229 resp_data) := by
    rw [parse_header229_response, if_neg hlen]
  have hr : List.range 5 = [0, 1, 2, 3, 4] := rfl
  refine ⟨h159, h229, ?_, ?_, ?_, ?_, ?_⟩
  · rw [h159]; simp
  · rw [h229]; simp
  · rw [h159, hr]
    simp [pair159_pair]
  · rw [h229, hr]
    simp [pair229_pair]
  · intro hshort
    have hmiss : ¬ 1 + i * 2 + 1 < resp_data.length := by omega
    simp only [pair159, pair229, if_neg hmiss]
    exact ⟨mk159_a 0 0 (i + 1), mk159_b 0 0 (i + 1), rfl, rfl⟩

/-- C3 witness: a 1-byte payload (counter only). -/
theorem decoders_five_records_witness :
    (([3] : List Nat) ≠ [] ∧ 4 < 5) ∧
    ((parse_header159_response [3]).2 = (List.range 5).map (pair159 [3]) ∧
     (parse_header229_response [3]).2 = (List.range 5).map (pair229 [3]) ∧
     (parse_header159_response [3]).2.length = 5 ∧
     (parse_header229_response [3]).2.length = 5 ∧
     (parse_header159_response [3]).2.map EventRecord.pair = [1, 2, 3, 4, 5] ∧
     (parse_header229_response [3]).2.map EventRecord.pair = [1, 2, 3, 4, 5] ∧
     (([3] : List Nat).length ≤ 2 * 4 + 2 →
       (pair159 [3] 4).a = 0 ∧ (pair159 [3] 4).b = 0 ∧
       (pair229 [3] 4).a = 0 ∧ (pair229 [3] 4).b = 0)) :=
  ⟨⟨by decide, by decide⟩, decoders_five_records [3] 4 (by decide) (by decide)⟩

/-- The category table of the bill decoder, characterized: for any code
`b`, which of the four categories `category159` assigns. -/
lemma category159_char (b : Nat) :
    (category159 b = "Status" ↔ b ∈ ([0, 1, 4, 5, 10, 11, 12, 14, 20, 21] : List Nat)) ∧
    (category159 b = "Reject" ↔ b ∈ ([2, 3] : List Nat)) ∧
    (category159 b = "Fatal Error" ↔ b ∈ ([6, 7, 13, 15, 16, 19] : List Nat)) ∧
    (b ∉ ([0, 1, 4, 5, 10, 11, 12, 14, 20, 21] : List Nat) →
      b ∉ ([2, 3] : List Nat) → b ∉ ([6, 7, 13, 15, 16, 19] : List Nat) →
      category159 b = "Fraud Attempt") := by
  by_cases h1 : b ∈ ([0, 1, 4, 5, 10, 11, 12, 14, 20, 21] : List Nat)
  · simp only [List.mem_cons, List.not_mem_nil, or_false] at h1
    rcases h1 with rfl | rfl | rfl | rfl | rfl | rfl | rfl | rfl | rfl | rfl <;> decide
  · by_cases h2 : b ∈ ([2, 3] : List Nat)
    · simp only [List.mem_cons, List.not_mem_nil, or_false] at h2
      rcases h2 with rfl | rfl <;> decide
    · by_cases h3 : b ∈ ([6, 7, 13, 15, 16, 19] : List Nat)
      · simp only [List.mem_cons, List.not_mem_nil, or_false] at h3
        rcases h3 with rfl | rfl | rfl | rfl | rfl | rfl <;> decide
      · have hcat : category159 b = "Fraud Attempt" := by
          rw [category159, if_neg h1, if_neg h2, if_neg h3]
        refine ⟨?_, ?_, ?_, fun _ _ _ => hcat⟩ <;> rw [hcat] <;>
          exact ⟨fun h => absurd h (by decide), fun h => absurd h (by assumption)⟩

/-- The bill classification with `result_a = 0` carries
`category159 result_b`, so `category159_char` transfers to it. -/
lemma mk159_char (a b p : Nat) (h : (mk159 a b p).a = 0) :
    ((mk159 a b p).category = "Status" ↔
      (mk159 a b p).b ∈ ([0, 1, 4, 5, 10, 11, 12, 14, 20, 21] : List Nat)) ∧
    ((mk159 a b p).category = "Reject" ↔ (mk159 a b p).b ∈ ([2, 3] : List Nat)) ∧
    ((mk159 a b p).category = "Fatal Error" ↔
      (mk159 a b p).b ∈ ([6, 7, 13, 15, 16, 19] : List Nat)) ∧
    ((mk159 a b p).b ∉ ([0, 1, 4, 5, 10, 11, 12, 14, 20, 21] : List Nat) →
      (mk159 a b p).b ∉ ([2, 3] : List Nat) →
      (mk159 a b p).b ∉ ([6, 7, 13, 15, 16, 19] : List Nat) →
      (mk159 a b p).category = "Fraud Attempt") := by
  rw [mk159_a] at h
  subst h
  have hcat : (mk159 0 b p).category = category159 b := rfl
  rw [mk159_b, hcat]
  exact category159_char b

/-- C6: in the bill decoder, every event with `resultA = 0` has category
"Status" iff `resultB ∈ {0,1,4,5,10,11,12,14,20,21}`, "Reject" iff
`resultB ∈ {2,3}`, "Fatal Error" iff `resultB ∈ {6,7,13,15,16,19}`, and
"Fraud Attempt" otherwise. -/
theorem bill_event_categories (resp_data : List Nat) (ev : EventRecord)
    (hev : ev ∈ (parse_header159_response resp_data).2) (ha : ev.a = 0) :
    (ev.category = "Status" ↔ ev.b ∈ ([0, 1, 4, 5, 10, 11, 12, 14, 20, 21] : List Nat)) ∧
    (ev.category = "Reject" ↔ ev.b ∈ ([2, 3] : List Nat)) ∧
    (ev.category = "Fatal Error" ↔ ev.b ∈ ([6, 7, 13, 15, 16, 19] : List Nat)) ∧
    (ev.b ∉ ([0, 1, 4, 5, 10, 11, 12, 14, 20, 21] : List Nat) →
      ev.b ∉ ([2, 3] : List Nat) → ev.b ∉ ([6, 7, 13, 15, 16, 19] : List Nat) →
      ev.category = "Fraud Attempt") := by
  by_cases hlen : resp_data.length < 1
  · rw [parse_header159_response, if_pos hlen] at hev
    exact absurd hev (List.not_mem_nil ev)
  · rw [parse_header159_response, if_neg hlen] at hev
    obtain ⟨i, _, rfl⟩ := List.mem_map.1 hev
    simp only [pair159] at ha ⊢
    exact mk159_char _ _ _ ha

/-- C6 witness: the defaulted pair of a counter-only payload, a
"Status" / "Master inhibit active" event. -/
theorem bill_event_categories_witness :
    ((⟨"Status", "Master inhibit active", 0, 0, 1⟩ : EventRecord) ∈
        (parse_header159_response [1]).2 ∧
      (⟨"Status", "Master inhibit active", 0, 0, 1⟩ : EventRecord).a = 0) ∧
    (((⟨"Status", "Master inhibit active", 0, 0, 1⟩ : EventRecord).category = "Status" ↔
        (⟨"Status", "Master inhibit active", 0, 0, 1⟩ : EventRecord).b ∈
          ([0, 1, 4, 5, 10, 11, 12, 14, 20, 21] : List Nat)) ∧
     ((⟨"Status", "Master inhibit active", 0, 0, 1⟩ : EventRecord).category = "Reject" ↔
        (⟨"Status", "Master inhibit active", 0, 0, 1⟩ : EventRecord).b ∈
          ([2, 3] : List Nat)) ∧
     ((⟨"Status", "Master inhibit active", 0, 0, 1⟩ : EventRecord).category = "Fatal Error" ↔
        (⟨"Status", "Master inhibit active", 0, 0, 1⟩ : EventRecord).b ∈
          ([6, 7, 13, 15, 16, 19] : List Nat)) ∧
     ((⟨"Status", "Master inhibit active", 0, 0, 1⟩ : EventRecord).b ∉
          ([0, 1, 4, 5, 10, 11, 12, 14, 20, 21] : List Nat) →
        (⟨"Status", "Master inhibit active", 0, 0, 1⟩ : EventRecord).b ∉
          ([2, 3] : List Nat) →
        (⟨"Status", "Master inhibit active", 0, 0, 1⟩ : EventRecord).b ∉
          ([6, 7, 13, 15, 16, 19] : List Nat) →
        (⟨"Status", "Master inhibit active", 0, 0, 1⟩ : EventRecord).category =
          "Fraud Attempt")) :=
  ⟨⟨by decide, by decide⟩, bill_event_categories [1] _ (by decide) (by decide)⟩

/-- C4: when the length-discovery read yields fewer than 2 bytes, `cmd`
returns the explicit no-response outcome `none` and performs no body
read (only the echo read and the length-discovery read happen). -/
theorem cmd_timeout_no_response (mode : ChecksumMode) (address header : Nat)
    (data stream : List Nat)
    (h : (stream.drop (cmd_req mode address header data).length).length < 2) :
    (cmd mode address header data stream).result = none ∧
    (cmd mode address header data stream).reads = 2 := by
  have hd : ¬ ((stream.drop (cmd_req mode address header data).length).take 2).length = 2 := by
    rw [List.length_take]
    omega
  rw [cmd]
  simp only [if_neg hd]
  constructor <;> trivial

/-- C4 witness: an empty stream (total timeout). -/
theorem cmd_timeout_no_response_witness :
    (([] : List Nat).drop (cmd_req .crc 40 254 []).length).length < 2 ∧
    ((cmd .crc 40 254 [] []).result = none ∧ (cmd .crc 40 254 [] []).reads = 2) :=
  ⟨by decide, cmd_timeout_no_response .crc 40 254 [] [] (by decide)⟩

/-- C5 counterexample: a short body read can leave the response longer
than the request message but below the 5-byte parse threshold, and then
`cmd` returns a partially-populated dictionary with `header = None`
(here: CRC mode, simple poll to address 40, response truncated to
4 bytes). -/
theorem cmd_partial_result :
    (cmd .crc 40 254 [] [0, 0, 0, 0, 0, 1, 200, 7, 7]).result =
      some { header := none, data := [] } := by decide

/-- C5 (amended): `cmd` returns `none` or a result dictionary; whenever
the assembled response frame has at least 5 bytes the dictionary is
fully populated (its header field is a byte of the response); a
`header = None` dictionary escapes only for responses shorter than
5 bytes that still exceed the request-message length. -/
theorem cmd_result_populated (mode : ChecksumMode) (address header : Nat)
    (data stream : List Nat) (r : CommandResult)
    (hr : (cmd mode address header data stream).result = some r)
    (hlen : 5 ≤ (cmd_resp mode address header data stream).length) :
    ∃ hb, r.header = some hb := by
  rw [cmd] at hr
  simp only [] at hr
  by_cases hd : ((stream.drop (cmd_req mode address header data).length).take 2).length = 2
  · rw [if_pos hd] at hr
    by_cases hle : (cmd_resp mode address header data stream).length ≤
        (cmd_msg mode address header data).length
    · rw [if_pos hle] at hr
      exact absurd hr (by simp)
    · rw [if_neg hle] at hr
      have ht : 3 ≤ ((_remove_crc mode (cmd_resp mode address header data stream)).1).length := by
        rw [remove_crc_len mode _ hlen]
        omega
      have hparse : cmd_parse mode (cmd_resp mode address header data stream) =
          (some (((_remove_crc mode (cmd_resp mode address header data stream)).1).getD 2 0),
           ((_remove_crc mode (cmd_resp mode address header data stream)).1).drop 3) := by
        rw [cmd_parse, if_pos hlen]
        simp only [if_pos ht]
      rw [hparse] at hr
      have := Option.some.inj hr
      exact ⟨_, by rw [← this]⟩
  · rw [if_neg hd] at hr
    exact absurd hr (by simp)

/-- C5 (amended) witness: a complete 5-byte response with header byte 8. -/
theorem cmd_result_populated_witness :
    ((cmd .crc 40 254 [] [0, 0, 0, 0, 0, 1, 0, 9, 8, 7]).result =
        some { header := some 8, data := [] } ∧
      5 ≤ (cmd_resp .crc 40 254 [] [0, 0, 0, 0, 0, 1, 0, 9, 8, 7]).length) ∧
    ∃ hb, ({ header := some 8, data := [] } : CommandResult).header = some hb :=
  ⟨⟨by decide, by decide⟩,
    cmd_result_populated .crc 40 254 [] [0, 0, 0, 0, 0, 1, 0, 9, 8, 7] _ (by decide) (by decide)⟩

/-- C8: whatever the device oracle answers and wherever (if anywhere)
the sweep is interrupted, `scan` leaves the session's address, checksum
mode and serial timeout at their pre-scan values (the serial timeout is
restored from `self.timeout`, which equals the live serial timeout on
entry for any session set up by `connect`). -/
theorem scan_restores_session (poll : Nat → ChecksumMode → Option (List Nat))
    (interrupt : Option Nat) (s : Session) (h : s.serTimeout = s.timeout) :
    (scan poll interrupt s).1.address = s.address ∧
    (scan poll interrupt s).1.checksum_mode = s.checksum_mode ∧
    (scan poll interrupt s).1.serTimeout = s.serTimeout := by
  refine ⟨rfl, rfl, ?_⟩
  rw [h]
  rfl

/-- C8 witness: a device injected at address 7 in checksum mode, scan
interrupted after 13 inner iterations. -/
theorem scan_restores_session_witness :
    (⟨40, .crc, 1/5, 1/5⟩ : Session).serTimeout = (⟨40, .crc, 1/5, 1/5⟩ : Session).timeout ∧
    ((scan (fun a m => if a == 7 && m == ChecksumMode.checksum then some [65, 66] else none)
          (some 13) ⟨40, .crc, 1/5, 1/5⟩).1.address =
        (⟨40, .crc, 1/5, 1/5⟩ : Session).address ∧
     (scan (fun a m => if a == 7 && m == ChecksumMode.checksum then some [65, 66] else none)
          (some 13) ⟨40, .crc, 1/5, 1/5⟩).1.checksum_mode =
        (⟨40, .crc, 1/5, 1/5⟩ : Session).checksum_mode ∧
     (scan (fun a m => if a == 7 && m == ChecksumMode.checksum then some [65, 66] else none)
          (some 13) ⟨40, .crc, 1/5, 1/5⟩).1.serTimeout =
        (⟨40, .crc, 1/5, 1/5⟩ : Session).serTimeout) :=
  ⟨rfl, scan_restores_session _ (some 13) ⟨40, .crc, 1/5, 1/5⟩ rfl⟩

end CctalkHost
